import Mathlib

/-!
Shallow embedding of src/theme.js, a light/dark theme toggle for a web page.

The mutable browser environment visible to the code is collected in one
record: the localStorage entry under the key theme-preference, the
data-theme attribute on document.documentElement, the availability and
current value of the window.matchMedia query for prefers-color-scheme dark,
the optional theme-toggle button element, and three fault flags saying
whether the corresponding localStorage call throws (the code wraps every
storage call in try/catch).  Each function of theme.js that touches this
environment becomes a total Lean function on this record; a parameter that
is a JavaScript string-or-null becomes an Option String.
-/

namespace ThemeJs

/-- The theme-toggle button element, reduced to the two attributes the code
writes: aria-label and title. -/
structure Button where
  ariaLabel : Option String
  title : Option String
  deriving Repr, DecidableEq

/-- The browser state visible to theme.js.  The three fault flags model
whether the localStorage getItem, setItem and removeItem calls throw. -/
structure State where
  storage : Option String
  attr : Option String
  matchMediaAvailable : Bool
  systemDark : Bool
  button : Option Button
  getThrows : Bool
  setThrows : Bool
  removeThrows : Bool
  deriving Repr, DecidableEq

/-- getSystemPreference: dark when window.matchMedia exists and the
prefers-color-scheme dark query matches, else light. -/
def getSystemPreference (s : State) : String :=
  if s.matchMediaAvailable && s.systemDark then "dark" else "light"

/-- getStoredPreference: localStorage.getItem wrapped in try/catch; a thrown
read yields null. -/
def getStoredPreference (s : State) : Option String :=
  if s.getThrows then none else s.storage

/-- setTheme: for dark or light, set the data-theme attribute and best-effort
write the storage entry; otherwise remove the attribute and best-effort remove
the entry.  A thrown storage call is swallowed, leaving storage unchanged. -/
def setTheme (s : State) (theme : Option String) : State :=
  if theme = some "dark" ∨ theme = some "light" then
    let s1 := { s with attr := theme }
    if s1.setThrows then s1 else { s1 with storage := theme }
  else
    let s1 := { s with attr := none }
    if s1.removeThrows then s1 else { s1 with storage := none }

/-- getCurrentTheme: the data-theme attribute when it is dark or light, else
the system preference. -/
def getCurrentTheme (s : State) : String :=
  match s.attr with
  | some dataTheme =>
      if dataTheme = "dark" ∨ dataTheme = "light" then dataTheme
      else getSystemPreference s
  | none => getSystemPreference s

/-- initTheme: apply an explicit stored preference via setTheme; otherwise set
the attribute directly to the system preference without touching storage. -/
def initTheme (s : State) : State :=
  let stored := getStoredPreference s
  if stored = some "dark" ∨ stored = some "light" then
    setTheme s stored
  else
    let systemTheme := getSystemPreference s
    { s with attr := some systemTheme }

/-- toggleTheme: branch on the stored (not effective) preference; absent or
unrecognised stored values fall to the system-opposite branch. -/
def toggleTheme (s : State) : State :=
  let _current := getCurrentTheme s
  let stored := getStoredPreference s
  if stored = some "dark" then
    setTheme s (some "light")
  else if stored = some "light" then
    setTheme s (some "dark")
  else
    let systemTheme := getSystemPreference s
    setTheme s (some (if systemTheme = "dark" then "light" else "dark"))

/-- updateToggleButton: no-op when the theme-toggle element is missing; else
write the aria-label and title describing the next action. -/
def updateToggleButton (s : State) : State :=
  match s.button with
  | none => s
  | some _button =>
      let currentTheme := getCurrentTheme s
      let label :=
        if currentTheme = "dark" then "Switch to light mode"
        else "Switch to dark mode"
      { s with button := some { ariaLabel := some label, title := some label } }

/-- JavaScript falsiness of a string-or-null value: null and the empty string
are falsy, every other string is truthy. -/
def jsFalsy : Option String → Bool
  | none => true
  | some v => v == ""

/-- The body of the media-query change listener: when no stored preference is
present (in the JavaScript falsiness sense), reflect the system preference
onto the attribute and refresh the button label; otherwise do nothing. -/
def mediaChangeHandler (s : State) : State :=
  let stored := getStoredPreference s
  if jsFalsy stored then
    let systemTheme := getSystemPreference s
    updateToggleButton { s with attr := some systemTheme }
  else s

/-- A prefers-color-scheme change event: the media query value flips to
newDark, then the registered handler runs. -/
def systemChangeEvent (s : State) (newDark : Bool) : State :=
  mediaChangeHandler { s with systemDark := newDark }

/-- The click listener attached to the toggle control: toggleTheme followed by
updateToggleButton. -/
def clickHandler (s : State) : State :=
  updateToggleButton (toggleTheme s)

/-- The DOM-ready wiring: look up the control, attach the click listener when
it is present (attachment itself changes no modelled state), then call
updateToggleButton unconditionally. -/
def domReadyWiring (s : State) : State :=
  match s.button with
  | none => updateToggleButton s
  | some _button => updateToggleButton s

lemma getSystemPreference_cases (s : State) :
    getSystemPreference s = "dark" ∨ getSystemPreference s = "light" := by
  unfold getSystemPreference
  split <;> simp

lemma getCurrentTheme_cases (s : State) :
    getCurrentTheme s = "dark" ∨ getCurrentTheme s = "light" := by
  unfold getCurrentTheme
  cases s.attr with
  | none => exact getSystemPreference_cases s
  | some a =>
      by_cases h : a = "dark" ∨ a = "light"
      · simp [h]
      · simpa [h] using getSystemPreference_cases s

lemma getStoredPreference_eq_some {s : State} {v : String}
    (h : getStoredPreference s = some v) :
    s.getThrows = false ∧ s.storage = some v := by
  unfold getStoredPreference at h
  cases hg : s.getThrows
  · simp [hg] at h
    simp [h]
  · simp [hg] at h

lemma setTheme_valid_fields (s : State) (v : String) (hv : v = "dark" ∨ v = "light") :
    (setTheme s (some v)).attr = some v ∧
    (setTheme s (some v)).storage = if s.setThrows then s.storage else some v := by
  have hc : some v = some "dark" ∨ some v = some "light" := by
    rcases hv with h | h <;> simp [h]
  unfold setTheme
  rw [if_pos hc]
  cases hs : s.setThrows <;> simp [hs]

lemma setTheme_button (s : State) (t : Option String) :
    (setTheme s t).button = s.button := by
  unfold setTheme
  split
  · dsimp only
    split <;> rfl
  · dsimp only
    split <;> rfl

lemma toggleTheme_button (s : State) : (toggleTheme s).button = s.button := by
  unfold toggleTheme
  by_cases h1 : getStoredPreference s = some "dark"
  · simp [h1, setTheme_button]
  · by_cases h2 : getStoredPreference s = some "light"
    · simp [h1, h2, setTheme_button]
    · simp [h1, h2, setTheme_button]

lemma updateToggleButton_noop {s : State} (h : s.button = none) :
    updateToggleButton s = s := by
  unfold updateToggleButton
  rw [h]

lemma updateToggleButton_preserves (s : State) :
    (updateToggleButton s).attr = s.attr ∧
    (updateToggleButton s).matchMediaAvailable = s.matchMediaAvailable ∧
    (updateToggleButton s).systemDark = s.systemDark := by
  unfold updateToggleButton
  cases s.button <;> simp

lemma getCurrentTheme_congr {s t : State} (ha : t.attr = s.attr)
    (hm : t.matchMediaAvailable = s.matchMediaAvailable)
    (hd : t.systemDark = s.systemDark) :
    getCurrentTheme t = getCurrentTheme s := by
  unfold getCurrentTheme getSystemPreference
  rw [ha, hm, hd]

/-- Concrete state: stored dark, attribute dark, system dark, button present,
no storage faults. -/
def stDark : State :=
  { storage := some "dark", attr := some "dark", matchMediaAvailable := true,
    systemDark := true, button := some { ariaLabel := none, title := none },
    getThrows := false, setThrows := false, removeThrows := false }

/-- Concrete state: stored light, attribute light, system dark, button present,
no storage faults. -/
def stLight : State :=
  { storage := some "light", attr := some "light", matchMediaAvailable := true,
    systemDark := true, button := some { ariaLabel := none, title := none },
    getThrows := false, setThrows := false, removeThrows := false }

/-- Concrete state: nothing stored, no attribute, system prefers dark, no
button, no storage faults. -/
def stUnsetDark : State :=
  { storage := none, attr := none, matchMediaAvailable := true,
    systemDark := true, button := none,
    getThrows := false, setThrows := false, removeThrows := false }

/-- Concrete state: nothing stored, no attribute, system prefers light, no
button, no storage faults. -/
def stUnsetLight : State :=
  { storage := none, attr := none, matchMediaAvailable := true,
    systemDark := false, button := none,
    getThrows := false, setThrows := false, removeThrows := false }

/-- Concrete state: every localStorage call throws. -/
def stFault : State :=
  { storage := some "dark", attr := some "dark", matchMediaAvailable := true,
    systemDark := false, button := none,
    getThrows := true, setThrows := true, removeThrows := true }

/-- Concrete state: a corrupted stored entry that is neither dark nor light. -/
def sCorrupt : State :=
  { storage := some "purple", attr := none, matchMediaAvailable := true,
    systemDark := true, button := some { ariaLabel := none, title := none },
    getThrows := false, setThrows := false, removeThrows := false }

/-- C1: toggleTheme follows the four-case transition table: stored dark goes
to light (stored value and attribute), stored light goes to dark, absent with
system dark goes to light, absent with system light goes to dark, assuming the
storage write succeeds. -/
theorem toggleTheme_transition_table (s : State) (hset : s.setThrows = false) :
    (getStoredPreference s = some "dark" →
      (toggleTheme s).storage = some "light" ∧ (toggleTheme s).attr = some "light") ∧
    (getStoredPreference s = some "light" →
      (toggleTheme s).storage = some "dark" ∧ (toggleTheme s).attr = some "dark") ∧
    (getStoredPreference s = none → getSystemPreference s = "dark" →
      (toggleTheme s).storage = some "light" ∧ (toggleTheme s).attr = some "light") ∧
    (getStoredPreference s = none → getSystemPreference s = "light" →
      (toggleTheme s).storage = some "dark" ∧ (toggleTheme s).attr = some "dark") := by
  refine ⟨?_, ?_, ?_, ?_⟩
  · intro h
    have ht : toggleTheme s = setTheme s (some "light") := by
      unfold toggleTheme
      simp [h]
    have hf := setTheme_valid_fields s "light" (Or.inr rfl)
    rw [ht, hf.2, hset]
    exact ⟨by simp, hf.1⟩
  · intro h
    have ht : toggleTheme s = setTheme s (some "dark") := by
      unfold toggleTheme
      simp [h]
    have hf := setTheme_valid_fields s "dark" (Or.inl rfl)
    rw [ht, hf.2, hset]
    exact ⟨by simp, hf.1⟩
  · intro h hsys
    have ht : toggleTheme s = setTheme s (some "light") := by
      unfold toggleTheme
      simp [h, hsys]
    have hf := setTheme_valid_fields s "light" (Or.inr rfl)
    rw [ht, hf.2, hset]
    exact ⟨by simp, hf.1⟩
  · intro h hsys
    have ht : toggleTheme s = setTheme s (some "dark") := by
      unfold toggleTheme
      simp [h, hsys]
    have hf := setTheme_valid_fields s "dark" (Or.inl rfl)
    rw [ht, hf.2, hset]
    exact ⟨by simp, hf.1⟩

/-- C1 witness: the four rows of the table at concrete states. -/
theorem toggleTheme_transition_table_check :
    ((toggleTheme stDark).storage = some "light" ∧
      (toggleTheme stDark).attr = some "light") ∧
    ((toggleTheme stLight).storage = some "dark" ∧
      (toggleTheme stLight).attr = some "dark") ∧
    ((toggleTheme stUnsetDark).storage = some "light" ∧
      (toggleTheme stUnsetDark).attr = some "light") ∧
    ((toggleTheme stUnsetLight).storage = some "dark" ∧
      (toggleTheme stUnsetLight).attr = some "dark") :=
  ⟨(toggleTheme_transition_table stDark rfl).1 rfl,
   (toggleTheme_transition_table stLight rfl).2.1 rfl,
   (toggleTheme_transition_table stUnsetDark rfl).2.2.1 rfl rfl,
   (toggleTheme_transition_table stUnsetLight rfl).2.2.2 rfl rfl⟩

/-- C2 counterexample: with the corrupted entry purple stored and no read
fault, getStoredPreference returns the raw string purple, not the absent
value, refuting the claim that every stored value outside dark and light is
read back as absent. -/
theorem getStoredPreference_corrupt_not_absent :
    getStoredPreference sCorrupt = some "purple" ∧
    getStoredPreference sCorrupt ≠ none := by
  constructor
  · rfl
  · decide

/-- C2 amended: for a stored value outside dark and light, getStoredPreference
returns that raw value unchanged (absent arises only from a missing entry or a
read fault); getCurrentTheme, whenever the document attribute is absent or
itself outside dark and light, falls back to the system preference; and the
decision points initTheme and toggleTheme treat such a stored value as absent
(system branch, storage left unchanged by initTheme). -/
theorem read_path_fallback (s : State) (v : String)
    (hget : s.getThrows = false) (hst : s.storage = some v)
    (hd : v ≠ "dark") (hl : v ≠ "light")
    (hattr : s.attr = none ∨ ∃ a, s.attr = some a ∧ a ≠ "dark" ∧ a ≠ "light") :
    getStoredPreference s = some v ∧
    getCurrentTheme s = getSystemPreference s ∧
    (initTheme s).attr = some (getSystemPreference s) ∧
    (initTheme s).storage = s.storage ∧
    toggleTheme s =
      setTheme s (some (if getSystemPreference s = "dark" then "light" else "dark")) := by
  have hsp : getStoredPreference s = some v := by
    unfold getStoredPreference
    rw [hget]
    simpa using hst
  have hcond : ¬(getStoredPreference s = some "dark" ∨ getStoredPreference s = some "light") := by
    simp [hsp, hd, hl]
  refine ⟨hsp, ?_, ?_, ?_, ?_⟩
  · unfold getCurrentTheme
    rcases hattr with h | ⟨a, ha, had, hal⟩
    · rw [h]
    · rw [ha]
      simp [had, hal]
  · unfold initTheme
    rw [if_neg hcond]
  · unfold initTheme
    rw [if_neg hcond]
  · unfold toggleTheme
    simp [hsp, hd, hl]

/-- C2 witness: the amended statement evaluated at the corrupted state. -/
theorem read_path_fallback_check :
    getStoredPreference sCorrupt = some "purple" ∧
    getCurrentTheme sCorrupt = getSystemPreference sCorrupt ∧
    (initTheme sCorrupt).attr = some (getSystemPreference sCorrupt) ∧
    (initTheme sCorrupt).storage = sCorrupt.storage ∧
    toggleTheme sCorrupt =
      setTheme sCorrupt
        (some (if getSystemPreference sCorrupt = "dark" then "light" else "dark")) :=
  read_path_fallback sCorrupt "purple" rfl rfl (by decide) (by decide) (Or.inl rfl)

/-- C3: with the stored preference dark, a system-preference-change event
leaves the document attribute, the stored value, and the button unchanged. -/
theorem systemChange_suppressed_when_stored_dark (s : State) (newDark : Bool)
    (h : getStoredPreference s = some "dark") :
    (systemChangeEvent s newDark).attr = s.attr ∧
    (systemChangeEvent s newDark).storage = s.storage ∧
    (systemChangeEvent s newDark).button = s.button := by
  have h2 : getStoredPreference { s with systemDark := newDark } = some "dark" := by
    unfold getStoredPreference at h ⊢
    exact h
  unfold systemChangeEvent mediaChangeHandler
  rw [h2]
  simp [jsFalsy]

/-- C3 witness: the event with the media value flipping to light, at the
concrete stored-dark state. -/
theorem systemChange_suppressed_check :
    (systemChangeEvent stDark false).attr = stDark.attr ∧
    (systemChangeEvent stDark false).storage = stDark.storage ∧
    (systemChangeEvent stDark false).button = stDark.button :=
  systemChange_suppressed_when_stored_dark stDark false rfl

/-- C4: when storage operations do not fault, setTheme dark then
getStoredPreference yields dark, likewise for light, and setTheme null then
getStoredPreference yields absent. -/
theorem setTheme_getStoredPreference_roundtrip (s : State)
    (hget : s.getThrows = false) (hset : s.setThrows = false)
    (hrem : s.removeThrows = false) :
    getStoredPreference (setTheme s (some "dark")) = some "dark" ∧
    getStoredPreference (setTheme s (some "light")) = some "light" ∧
    getStoredPreference (setTheme s none) = none := by
  simp [setTheme, getStoredPreference, hget, hset, hrem]

/-- C4 witness: the round trip at a concrete fault-free state. -/
theorem setTheme_getStoredPreference_roundtrip_check :
    getStoredPreference (setTheme stDark (some "dark")) = some "dark" ∧
    getStoredPreference (setTheme stDark (some "light")) = some "light" ∧
    getStoredPreference (setTheme stDark none) = none :=
  setTheme_getStoredPreference_roundtrip stDark rfl rfl rfl

/-- C5: initTheme applies an explicit stored preference via setTheme, leaving
both the attribute and the stored entry at that value; otherwise it sets the
attribute to the system preference and leaves storage unchanged. -/
theorem initTheme_behavior (s : State) :
    ((getStoredPreference s = some "dark" ∨ getStoredPreference s = some "light") →
      initTheme s = setTheme s (getStoredPreference s) ∧
      (initTheme s).attr = getStoredPreference s ∧
      (initTheme s).storage = getStoredPreference s) ∧
    (¬(getStoredPreference s = some "dark" ∨ getStoredPreference s = some "light") →
      (initTheme s).attr = some (getSystemPreference s) ∧
      (initTheme s).storage = s.storage) := by
  constructor
  · intro h
    have h1 : initTheme s = setTheme s (getStoredPreference s) := by
      unfold initTheme
      rw [if_pos h]
    refine ⟨h1, ?_⟩
    have hv : ∃ v, getStoredPreference s = some v ∧ (v = "dark" ∨ v = "light") := by
      rcases h with h | h
      · exact ⟨"dark", h, Or.inl rfl⟩
      · exact ⟨"light", h, Or.inr rfl⟩
    rcases hv with ⟨v, hv, hvv⟩
    have hf := setTheme_valid_fields s v hvv
    have hsp := getStoredPreference_eq_some hv
    rw [h1, hv]
    refine ⟨hf.1, ?_⟩
    rw [hf.2]
    cases hst : s.setThrows
    · simp
    · simp [hsp.2]
  · intro h
    unfold initTheme
    rw [if_neg h]
    exact ⟨rfl, rfl⟩

/-- C5 witness: both branches at concrete states, first a stored-dark state,
then a state with nothing stored. -/
theorem initTheme_behavior_check :
    (initTheme stDark = setTheme stDark (getStoredPreference stDark) ∧
      (initTheme stDark).attr = getStoredPreference stDark ∧
      (initTheme stDark).storage = getStoredPreference stDark) ∧
    ((initTheme stUnsetDark).attr = some (getSystemPreference stUnsetDark) ∧
      (initTheme stUnsetDark).storage = stUnsetDark.storage) :=
  ⟨(initTheme_behavior stDark).1 (Or.inl rfl),
   (initTheme_behavior stUnsetDark).2 (by decide)⟩

/-- C6: storage faults never escape: a throwing read makes getStoredPreference
return absent; a throwing write inside setTheme still applies the attribute
change and leaves storage as it was; a throwing remove inside setTheme null
still removes the attribute and leaves storage as it was. -/
theorem storage_faults_contained (s : State) :
    (s.getThrows = true → getStoredPreference s = none) ∧
    (s.setThrows = true →
      ((setTheme s (some "dark")).attr = some "dark" ∧
        (setTheme s (some "dark")).storage = s.storage) ∧
      ((setTheme s (some "light")).attr = some "light" ∧
        (setTheme s (some "light")).storage = s.storage)) ∧
    (s.removeThrows = true →
      (setTheme s none).attr = none ∧ (setTheme s none).storage = s.storage) := by
  refine ⟨?_, ?_, ?_⟩ <;> intro h <;> simp [getStoredPreference, setTheme, h]

/-- C6 witness: all three fault cases at a state where every storage call
throws. -/
theorem storage_faults_contained_check :
    getStoredPreference stFault = none ∧
    ((setTheme stFault (some "dark")).attr = some "dark" ∧
      (setTheme stFault (some "dark")).storage = stFault.storage) ∧
    ((setTheme stFault (some "light")).attr = some "light" ∧
      (setTheme stFault (some "light")).storage = stFault.storage) ∧
    ((setTheme stFault none).attr = none ∧
      (setTheme stFault none).storage = stFault.storage) :=
  ⟨(storage_faults_contained stFault).1 rfl,
   ((storage_faults_contained stFault).2.1 rfl).1,
   ((storage_faults_contained stFault).2.1 rfl).2,
   (storage_faults_contained stFault).2.2 rfl⟩

/-- C7: when the toggle control exists, updateToggleButton leaves the current
theme unchanged and writes aria-label and title together: they read Switch to
light mode exactly when the current theme is dark, and Switch to dark mode
exactly when it is light. -/
theorem updateToggleButton_label (s : State) (b : Button) (hb : s.button = some b) :
    getCurrentTheme (updateToggleButton s) = getCurrentTheme s ∧
    ((updateToggleButton s).button =
        some { ariaLabel := some "Switch to light mode",
               title := some "Switch to light mode" } ↔
      getCurrentTheme s = "dark") ∧
    ((updateToggleButton s).button =
        some { ariaLabel := some "Switch to dark mode",
               title := some "Switch to dark mode" } ↔
      getCurrentTheme s = "light") := by
  obtain ⟨h1, h2, h3⟩ := updateToggleButton_preserves s
  refine ⟨getCurrentTheme_congr h1 h2 h3, ?_, ?_⟩ <;>
    rcases getCurrentTheme_cases s with hc | hc <;>
      simp [updateToggleButton, hb, hc]

/-- C7 witness: the labels at a concrete dark state with a button present. -/
theorem updateToggleButton_label_check :
    getCurrentTheme (updateToggleButton stDark) = getCurrentTheme stDark ∧
    ((updateToggleButton stDark).button =
        some { ariaLabel := some "Switch to light mode",
               title := some "Switch to light mode" } ↔
      getCurrentTheme stDark = "dark") ∧
    ((updateToggleButton stDark).button =
        some { ariaLabel := some "Switch to dark mode",
               title := some "Switch to dark mode" } ↔
      getCurrentTheme stDark = "light") :=
  updateToggleButton_label stDark { ariaLabel := none, title := none } rfl

/-- C8: setTheme with dark, and likewise with light, is idempotent: a second
identical call changes neither the document attribute nor the stored value,
whatever the starting state and fault flags. -/
theorem setTheme_idempotent (s : State) :
    ((setTheme (setTheme s (some "dark")) (some "dark")).attr =
        (setTheme s (some "dark")).attr ∧
      (setTheme (setTheme s (some "dark")) (some "dark")).storage =
        (setTheme s (some "dark")).storage) ∧
    ((setTheme (setTheme s (some "light")) (some "light")).attr =
        (setTheme s (some "light")).attr ∧
      (setTheme (setTheme s (some "light")) (some "light")).storage =
        (setTheme s (some "light")).storage) := by
  cases hs : s.setThrows <;> simp [setTheme, hs]

/-- C9: with no toggle control in the document, updateToggleButton is a no-op,
the DOM-ready wiring changes nothing, a click reduces to toggleTheme alone,
and the system-change event never materialises a button. -/
theorem no_control_noop (s : State) (h : s.button = none) :
    updateToggleButton s = s ∧
    domReadyWiring s = s ∧
    clickHandler s = toggleTheme s ∧
    (systemChangeEvent s true).button = none ∧
    (systemChangeEvent s false).button = none := by
  have h1 : updateToggleButton s = s := updateToggleButton_noop h
  have hbtn : ∀ d : Bool, (systemChangeEvent s d).button = none := by
    intro d
    unfold systemChangeEvent mediaChangeHandler
    dsimp only
    split
    · rw [updateToggleButton_noop]
      · exact h
      · exact h
    · exact h
  refine ⟨h1, ?_, ?_, hbtn true, hbtn false⟩
  · unfold domReadyWiring
    rw [h]
    exact h1
  · have h2 : (toggleTheme s).button = none := (toggleTheme_button s).trans h
    unfold clickHandler
    exact updateToggleButton_noop h2

/-- C9 witness: the no-op facts at a concrete state without a button. -/
theorem no_control_noop_check :
    updateToggleButton stUnsetDark = stUnsetDark ∧
    domReadyWiring stUnsetDark = stUnsetDark ∧
    clickHandler stUnsetDark = toggleTheme stUnsetDark ∧
    (systemChangeEvent stUnsetDark true).button = none ∧
    (systemChangeEvent stUnsetDark false).button = none :=
  no_control_noop stUnsetDark rfl

/-- C10: a non-empty stored value outside dark and light suppresses the
system-change handler entirely (the handler is the identity, so attribute and
button label are untouched), while initTheme and toggleTheme treat the same
value as absent. -/
theorem corrupt_value_treated_as_explicit (s : State) (v : String)
    (hv : getStoredPreference s = some v) (hne : v ≠ "")
    (hd : v ≠ "dark") (hl : v ≠ "light") :
    mediaChangeHandler s = s ∧
    systemChangeEvent s true = { s with systemDark := true } ∧
    systemChangeEvent s false = { s with systemDark := false } ∧
    (initTheme s).attr = some (getSystemPreference s) ∧
    (initTheme s).storage = s.storage ∧
    toggleTheme s =
      setTheme s (some (if getSystemPreference s = "dark" then "light" else "dark")) := by
  have hcond : ¬(getStoredPreference s = some "dark" ∨ getStoredPreference s = some "light") := by
    simp [hv, hd, hl]
  have hmedia : ∀ t : State, getStoredPreference t = some v → mediaChangeHandler t = t := by
    intro t ht
    unfold mediaChangeHandler
    rw [ht]
    simp [jsFalsy, hne]
  have hv2 : ∀ d : Bool, getStoredPreference { s with systemDark := d } = some v := by
    intro d
    unfold getStoredPreference at hv ⊢
    exact hv
  refine ⟨hmedia s hv, hmedia _ (hv2 true), hmedia _ (hv2 false), ?_, ?_, ?_⟩
  · unfold initTheme
    rw [if_neg hcond]
  · unfold initTheme
    rw [if_neg hcond]
  · unfold toggleTheme
    simp [hv, hd, hl]

/-- C10 witness: the suppression and the absent-style treatment at the
concrete corrupted state. -/
theorem corrupt_value_treated_as_explicit_check :
    mediaChangeHandler sCorrupt = sCorrupt ∧
    systemChangeEvent sCorrupt true = { sCorrupt with systemDark := true } ∧
    systemChangeEvent sCorrupt false = { sCorrupt with systemDark := false } ∧
    (initTheme sCorrupt).attr = some (getSystemPreference sCorrupt) ∧
    (initTheme sCorrupt).storage = sCorrupt.storage ∧
    toggleTheme sCorrupt =
      setTheme sCorrupt
        (some (if getSystemPreference sCorrupt = "dark" then "light" else "dark")) :=
  corrupt_value_treated_as_explicit sCorrupt "purple" rfl (by decide) (by decide) (by decide)

end ThemeJs
